import Mathlib

/-!
Verification of the contract-drafting front-end core.

Shallow embedding of the conversation state store, workflow driver
dispatch, section-structure editor and document exporter of the
I2POC contract-drafting application, together with proofs of the
specified properties.

Source locations embedded here:
* `ContractSectionsDisplay.jsx` — section/subsection editing
  (`deleteSubsection`, `updateSection`, `deleteSection`);
* `ChatContext.jsx` (version1) — the conversation state store and
  workflow driver dispatch (`handleSend`, `handleDraftChat`, the
  placeholder `useEffect` on `contractSections`);
* `FileUploadSection.jsx` / `DynamicDocumentation.jsx`
  (src/unnamed/part_000 and part_006) — the DOCX exporter
  (`generateDraftsDocx`, `createFormattedSection`,
  `handleDownloadContract`, the Download button handler).
-/

/-- A subsection of a contract section, as in the agent's
`all_sections` payload: `{subsection_heading, subsection_definition}`. -/
structure CSubsection where
  subsection_heading : String
  subsection_definition : String
deriving DecidableEq, Repr

/-- A contract section:
`{section_heading, section_purpose, subsections}`. -/
structure CSection where
  section_heading : String
  section_purpose : String
  subsections : List CSubsection
deriving DecidableEq, Repr

/-- One chat transcript entry. The JS objects carry `role`, `content`
and optionally `reason`/`section`/`subsection` (present on assistant
question turns). -/
structure Turn where
  role : String
  content : String
  reason : Option String := none
  qsection : Option String := none
  qsubsection : Option String := none
deriving DecidableEq, Repr

/-- The draft registry is a JS object keyed by section heading; we keep
the key insertion order explicit as an association list. -/
abbrev DraftMap := List (String × String)

/-- JS object spread update `{...prev, [h]: v}`: replaces the value in
place if the key exists (keeping its position), otherwise appends. -/
def setDraft (d : DraftMap) (h v : String) : DraftMap :=
  if d.any (fun p => p.1 = h) then
    d.map (fun p => if p.1 = h then (h, v) else p)
  else
    d ++ [(h, v)]

/-- JS `String.prototype.trim`: strip leading and trailing
whitespace. -/
def jsTrim (s : String) : String :=
  String.mk (((s.toList.dropWhile Char.isWhitespace).reverse.dropWhile
    Char.isWhitespace).reverse)

/-- Lookup in the draft registry (`drafts[heading]`). -/
def lookupDraft (d : DraftMap) (h : String) : Option String :=
  (d.find? (fun p => p.1 = h)).map (·.2)

/-- JS `array.filter((_, i) => i !== idx)`: drop the element at `idx`,
identity when `idx` is out of range — which is exactly
`List.eraseIdx`. -/
def removeAtIdx {α : Type} (l : List α) (idx : Nat) : List α :=
  l.eraseIdx idx

/-- Function `deleteSubsection` from `ContractSectionsDisplay.jsx`: rejects the
delete (state unchanged, after an alert) when the targeted section has
at most one subsection; otherwise removes the subsection at
`subsectionIndex`.  An out-of-range `sectionIndex` throws in JS before
any state update, so the section list is likewise unchanged. -/
def deleteSubsection (sections : List CSection) (sectionIndex subsectionIndex : Nat) :
    List CSection :=
  match sections[sectionIndex]? with
  | none => sections
  | some sec =>
    if sec.subsections.length ≤ 1 then sections
    else
      sections.set sectionIndex
        { sec with subsections := removeAtIdx sec.subsections subsectionIndex }

/-- A sequence of subsection-delete operations, applied left to right. -/
def runDeletes (sections : List CSection) (ops : List (Nat × Nat)) : List CSection :=
  ops.foldl (fun ss op => deleteSubsection ss op.1 op.2) sections

/-! Conversation state store (`ChatContext.jsx`, version1). -/

/-- The mutable state held by `ChatProvider` (the fields the workflow
operations read or write). -/
structure ChatState where
  messages : List Turn
  draftMessages : List Turn
  drafts : DraftMap
  input : String
  initialChatStep : String
  contractSections : List CSection
  session_id : String
  selectedTitle : String
  rephrasedIdea : String
  activeSection : String
  isReviewedSectionDraftActive : Bool
  isDraftingComplete : Bool
deriving DecidableEq, Repr

/-- The decoded JSON payload of a `/chat` response.  Absent string
fields are modelled as `""` (JS `undefined` is falsy, as is `""`; the
code only ever tests these fields for truthiness or equality with
non-empty tags).  `final_all_drafts` models `res?.final_state?.all_drafts`. -/
structure AgentResponse where
  rtype : String
  action : String
  question : String
  reason : String
  qsection : String
  qsubsection : String
  session_id : String
  all_sections : List CSection
  title : String
  idea : String
  draft : String
  final_all_drafts : Option DraftMap
deriving DecidableEq, Repr

/-- The ways a `/chat` round trip can fail before the dispatch on
`action` runs: `chatWithDraftAgent` throws on a network failure
("Failed to fetch"), a non-2xx status ("HTTP error! status: N") or an
empty body ("Empty response from server"); `handleSend`/`handleDraftChat`
additionally throw "Failed to parse server response: …" when the body
does not decode. -/
inductive ChatFailure where
  | fetchFailed
  | httpError (status : Nat)
  | emptyResponse
  | parseFailure (msg : String)
deriving DecidableEq, Repr

/-- Outcome of one `chatWithDraftAgent` round trip plus response
decoding, as observed by the store operation. -/
inductive ChatResult where
  | failure (f : ChatFailure)
  | success (r : AgentResponse)
deriving DecidableEq, Repr

/-- Predicate `charsHavePre p s`: `p` is an initial segment of `s`. -/
def charsHavePre : List Char → List Char → Bool
  | [], _ => true
  | _ :: _, [] => false
  | p :: ps, c :: cs => p == c && charsHavePre ps cs

/-- Predicate `charsHaveSub p s`: `p` occurs contiguously somewhere in `s`
(JS `String.prototype.includes`). -/
def charsHaveSub (pat : List Char) : List Char → Bool
  | [] => charsHavePre pat []
  | c :: cs => charsHavePre pat (c :: cs) || charsHaveSub pat cs

/-- JS `errorMessage.includes(pat)`. -/
def strContainsSub (s pat : String) : Bool :=
  charsHaveSub pat.toList s.toList

/-- The `error.message` text produced by each failure. -/
def errMessage : ChatFailure → String
  | .fetchFailed => "Failed to fetch"
  | .httpError status => "HTTP error! status: " ++ toString status
  | .emptyResponse => "Empty response from server"
  | .parseFailure m => "Failed to parse server response: " ++ m

/-- The user-visible message chosen by `handleSend`'s catch block from
the thrown error's message. -/
def userErrorMessage (m : String) : String :=
  if strContainsSub m "Failed to fetch" || strContainsSub m "Network Error" then
    "Network connection error. Please check your internet connection and try again."
  else if strContainsSub m "Empty response" then
    "The server returned an empty response. Please try again."
  else if strContainsSub m "HTTP error" then
    "Server connection error. Please ensure the backend server is running."
  else
    "I apologize, but I encountered an error. Please try again."

/-- A user turn `{ role: "user", content }`. -/
def userTurn (content : String) : Turn :=
  { role := "user", content := content }

/-- The assistant turn appended for a `get_question_response`
interrupt in `handleSend`: carries `question`, `reason`, `section`,
`subsection`. -/
def assistantQuestionTurn (r : AgentResponse) : Turn :=
  { role := "assistant", content := r.question, reason := some r.reason,
    qsection := some r.qsection, qsubsection := some r.qsubsection }

/-- Function `handleSend` from `ChatContext.jsx`: one initial-chat submission.
The second component records whether the operation invoked the network
driver (`chatWithDraftAgent`).  `res` is the outcome of that round trip
(ignored when no request is made). -/
def handleSend (st : ChatState) (res : ChatResult) : ChatState × Bool :=
  if jsTrim st.input = "" then (st, false)
  else
    let updated := st.messages ++ [userTurn st.input]
    let st1 := { st with messages := updated, input := "" }
    if st.initialChatStep = "idea-submission" then
      match res with
      | .failure f =>
        ({ st1 with messages := updated ++
            [{ role := "assistant", content := userErrorMessage (errMessage f) }] }, true)
      | .success r =>
        if r.rtype = "interrupt" then
          if r.action = "get_question_response" then
            ({ st1 with messages := updated ++ [assistantQuestionTurn r],
                        initialChatStep := "question-response" }, true)
          else if r.action = "get_structure_review" then
            ({ st1 with session_id := r.session_id,
                        contractSections := r.all_sections,
                        selectedTitle := r.title,
                        rephrasedIdea := r.idea,
                        initialChatStep := "structure-review" }, true)
          else (st1, true)
        else (st1, true)
    else if st.initialChatStep = "question-response" then
      match res with
      | .failure f =>
        ({ st1 with messages := updated ++
            [{ role := "assistant", content := userErrorMessage (errMessage f) }] }, true)
      | .success r =>
        if r.rtype = "interrupt" then
          if r.action = "get_question_response" then
            -- "Stay in question-response mode": no stage write.
            ({ st1 with messages := updated ++ [assistantQuestionTurn r] }, true)
          else if r.action = "get_structure_review" then
            ({ st1 with session_id := r.session_id,
                        contractSections := r.all_sections,
                        selectedTitle := r.title,
                        rephrasedIdea := r.idea,
                        initialChatStep := "structure-review" }, true)
          else (st1, true)
        else (st1, true)
    else
      -- Any other stage: the try body has no branch, so only the user
      -- turn append and input clear happen and no request is sent.
      (st1, false)

/-- The `updatedMessages` local of `handleDraftChat`: the user turn is
appended only when an active section is set and the continue path is
inactive. -/
def draftUpdatedMessages (st : ChatState) : List Turn :=
  if st.activeSection ≠ "" ∧ st.isReviewedSectionDraftActive = false then
    st.draftMessages ++ [userTurn st.input]
  else st.draftMessages

/-- Function `handleDraftChat` from `ChatContext.jsx`: one drafting-phase
submission.  Second component as in `handleSend`. -/
def handleDraftChat (st : ChatState) (res : ChatResult) : ChatState × Bool :=
  if jsTrim st.input = "" ∧ st.activeSection ≠ "" ∧ st.isReviewedSectionDraftActive = false then
    (st, false)
  else
    let updated := draftUpdatedMessages st
    let st1 := { st with draftMessages := updated, input := "" }
    match res with
    | .failure f =>
      -- setIsReviewedSectionDraftActive(false) runs after the network
      -- await, so it only happens when the failure is a decode failure.
      let st2 :=
        match f with
        | .parseFailure _ => { st1 with isReviewedSectionDraftActive := false }
        | _ => st1
      ({ st2 with draftMessages := updated ++
          [{ role := "assistant",
             content := "I apologize, but I encountered an error. Please try again." }] }, true)
    | .success r =>
      let st2 := { st1 with isReviewedSectionDraftActive := false }
      let st3 :=
        if r.action ≠ "generate_document" then { st2 with activeSection := r.qsection }
        else st2
      if r.action = "generate_document" then
        match r.final_all_drafts with
        | some m =>
          ({ st3 with
              drafts := m
              isDraftingComplete := true
              draftMessages := updated ++
                [{ role := "assistant",
                   content := "## **We have completed all the sections. Download the draft from draft section.**" }] }, true)
        | none => (st3, true)
      else if r.action = "get_question_response" then
        ({ st3 with
            draftMessages := updated ++
              [{ role := "assistant", content := r.question, reason := some r.reason }],
            drafts := if r.draft ≠ "" then setDraft st.drafts r.qsection r.draft
                      else st.drafts }, true)
      else if r.action = "get_reviewed_section_draft" then
        ({ st3 with
            isReviewedSectionDraftActive := true
            draftMessages := updated ++
              [{ role := "assistant",
                 content := "Please check the **" ++ st.activeSection ++
                   "** section draft.\n\nIf you like the draft click on the **Continue** button, or edit the draft" }]
            drafts := setDraft st.drafts r.qsection r.draft }, true)
      else if r.action = "get_review_changes" then
        ({ st3 with draftMessages := updated ++
            [{ role := "assistant",
               content := "Please reply with the changes you want to make." }] }, true)
      else (st3, true)

/-- The placeholder text the `ChatProvider` effect writes per section. -/
def placeholderText : String := "Currently we have not completed this section."

/-- The `useEffect` on `contractSections` in `ChatProvider`: whenever
the section list changes to a non-empty list, write the placeholder
into the draft registry under every current section heading. -/
def applySectionsEffect (sections : List CSection) (d : DraftMap) : DraftMap :=
  if 0 < sections.length then
    sections.foldl (fun acc s => setDraft acc s.section_heading placeholderText) d
  else d

/-- The remaining section-structure edit operations from
`ContractSectionsDisplay.jsx`.  `updateSection(index, field, value)`
writes one field of one section; an out-of-range index throws in JS
before any state update. -/
inductive SectionField where
  | heading
  | purpose
deriving DecidableEq, Repr

def updateSection (sections : List CSection) (si : Nat) (f : SectionField)
    (v : String) : List CSection :=
  match sections[si]? with
  | none => sections
  | some sec =>
    sections.set si
      (match f with
       | .heading => { sec with section_heading := v }
       | .purpose => { sec with section_purpose := v })

/-- Function `deleteSection(index)`: `contractSections.filter((_, i) => i !== index)`. -/
def deleteSection (sections : List CSection) (si : Nat) : List CSection :=
  removeAtIdx sections si

/-! Document exporter (`generateDraftsDocx` and its two call paths). -/

/-- One emitted DOCX paragraph: either the bold colored section heading
paragraph or a body-text paragraph. -/
inductive Block where
  | heading (text : String)
  | para (text : String)
deriving DecidableEq, Repr

/-- Helper for `contentLines`: collect maximal runs of non-newline
characters (`acc` holds the current run, reversed). -/
def splitChunksAux : List Char → List Char → List String
  | [], acc => if acc.isEmpty then [] else [String.mk acc.reverse]
  | c :: cs, acc =>
    if c = '\n' then
      (if acc.isEmpty then [] else [String.mk acc.reverse]) ++ splitChunksAux cs []
    else splitChunksAux cs (c :: acc)

/-- JS `content.split(/\n+/).filter(Boolean)`: the maximal runs of
non-newline characters, empty pieces dropped. -/
def contentLines (content : String) : List String :=
  splitChunksAux content.toList []

/-- Function `createFormattedSection(title, content)`: one heading paragraph
(always emitted), then one body paragraph per non-empty line chunk. -/
def createFormattedSection (title content : String) : List Block :=
  Block.heading title :: (contentLines content).map Block.para

/-- The flat block sequence of the document built by
`generateDraftsDocx`: `Object.entries(drafts).flatMap(createFormattedSection)`. -/
def generateDraftsDocxBlocks (drafts : DraftMap) : List Block :=
  (drafts.map (fun p => createFormattedSection p.1 p.2)).flatten

/-- The suggested filename set by `generateDraftsDocx`:
`` `${pocTitle || "draft"}.docx` `` — the raw title, or "draft" when
the title is empty/absent. -/
def docxFileName (pocTitle : String) : String :=
  (if pocTitle = "" then "draft" else pocTitle) ++ ".docx"

/-- Observable outcome of one export call. -/
inductive ExportOutcome where
  | noop
  | alerted (msg : String)
  | fileSaved (filename : String) (blocks : List Block)
deriving DecidableEq, Repr

/-- The Download button in `DynamicDocumentation` (src/unnamed/part_006):
`onClick={() => generateDraftsDocx(drafts, selectedTitle)}` — no
pre-check of any kind. -/
def draftPanelDownload (drafts : DraftMap) (selectedTitle : String) : ExportOutcome :=
  .fileSaved (docxFileName selectedTitle) (generateDraftsDocxBlocks drafts)

/-- One entry of `finalContract.sections`. -/
structure FCSection where
  heading : String
  content : String
deriving DecidableEq, Repr

/-- The `finalContract` object consumed by `handleDownloadContract`
(src/unnamed/part_000).  `""` encodes an absent/falsy string field;
`Option` encodes presence of the `sections` array / `drafts` object. -/
structure FinalContract where
  title : String
  contract_title : String
  sections : Option (List FCSection)
  drafts : Option DraftMap
deriving DecidableEq, Repr

/-- JS `finalContract.title || finalContract.contract_title || 'Generated Contract'`. -/
def contractTitleOf (fc : FinalContract) : String :=
  if fc.title ≠ "" then fc.title
  else if fc.contract_title ≠ "" then fc.contract_title
  else "Generated Contract"

/-- The `formattedContent` string `handleDownloadContract` accumulates:
from the sections array (pairs with truthy heading and content only),
else from the drafts object (all pairs). -/
def formattedContentOf (fc : FinalContract) : String :=
  match fc.sections with
  | some secs =>
    String.join (secs.map (fun s =>
      if s.heading ≠ "" ∧ s.content ≠ "" then
        "## " ++ s.heading ++ "\n\n" ++ s.content ++ "\n\n"
      else ""))
  | none =>
    match fc.drafts with
    | some ds => String.join (ds.map (fun p => "## " ++ p.1 ++ "\n\n" ++ p.2 ++ "\n\n"))
    | none => ""

/-- The `contractDrafts` object `handleDownloadContract` hands to
`generateDraftsDocx`. -/
def extractDraftsOf (fc : FinalContract) : DraftMap :=
  match fc.sections with
  | some secs =>
    secs.foldl
      (fun acc s =>
        if s.heading ≠ "" ∧ s.content ≠ "" then setDraft acc s.heading s.content
        else acc) []
  | none =>
    match fc.drafts with
    | some ds => ds
    | none => []

def downloadAlertMsg : String :=
  "No contract content found to download. Please try generating the contract again."

/-- JS `contractTitle.replace(/[^a-zA-Z0-9\s]/g, '').replace(/\s+/g, '_')`:
strip non-alphanumeric non-whitespace characters, then collapse each
whitespace run to a single underscore. -/
def collapseWs : List Char → Bool → List Char
  | [], _ => []
  | c :: cs, prevWs =>
    if c.isWhitespace then
      if prevWs then collapseWs cs true else '_' :: collapseWs cs true
    else c :: collapseWs cs false

def sanitizeTitle (t : String) : String :=
  String.mk (collapseWs (t.toList.filter (fun c => c.isAlphanum || c.isWhitespace)) false)

/-- The `filename` local computed in `handleDownloadContract`
(`` `${sanitized}_Contract.docx` ``).  It is computed and then never
used: the actual suggested filename comes from `generateDraftsDocx`. -/
def unusedSanitizedFileName (contractTitle : String) : String :=
  sanitizeTitle contractTitle ++ "_Contract.docx"

/-- Function `handleDownloadContract` (src/unnamed/part_000): no-op without a
final contract; alert (and no file) when the formatted content is
blank after trimming; otherwise build the DOCX from the extracted
drafts, with the raw (unsanitized) contract title as filename stem. -/
def handleDownloadContract (fc : Option FinalContract) : ExportOutcome :=
  match fc with
  | none => .noop
  | some c =>
    if jsTrim (formattedContentOf c) = "" then .alerted downloadAlertMsg
    else
      .fileSaved (docxFileName (contractTitleOf c))
        (generateDraftsDocxBlocks (extractDraftsOf c))

def demoState : ChatState :=
  { messages := [], draftMessages := [], drafts := [], input := "Draft an NDA",
    initialChatStep := "idea-submission", contractSections := [], session_id := "",
    selectedTitle := "", rephrasedIdea := "", activeSection := "",
    isReviewedSectionDraftActive := false, isDraftingComplete := false }

def demoStructureResp : AgentResponse :=
  { rtype := "interrupt", action := "get_structure_review", question := "",
    reason := "", qsection := "", qsubsection := "", session_id := "s-1",
    all_sections :=
      [{ section_heading := "Intro"
         section_purpose := "p"
         subsections := [{ subsection_heading := "h", subsection_definition := "d" }] },
       { section_heading := "Terms"
         section_purpose := "q"
         subsections := [{ subsection_heading := "h2", subsection_definition := "d2" }] }],
    title := "T", idea := "I", draft := "", final_all_drafts := none }

/-- Demo data: a section list with a single-subsection section and a
two-subsection section. -/
def demoIntroSection : CSection :=
  { section_heading := "Introduction"
    section_purpose := "Provides context and objectives for the Contract."
    subsections := [{ subsection_heading := "Purpose"
                      subsection_definition := "Explains the intent." }] }

def demoTermsSection : CSection :=
  { section_heading := "Terms"
    section_purpose := "Defines key terms."
    subsections := [{ subsection_heading := "Parties"
                      subsection_definition := "Who contracts." },
                    { subsection_heading := "Definitions"
                      subsection_definition := "What terms mean." }] }

def demoSections : List CSection := [demoIntroSection, demoTermsSection]

/-- Demo store state sitting at `question-response` with a session id
already assigned. -/
def demoStatePrior : ChatState :=
  { demoState with initialChatStep := "question-response", session_id := "s-prior" }

/-- Demo store state at the drafting bootstrap: blank input, no active
section, continue path inactive. -/
def demoBootState : ChatState :=
  { demoState with input := "", activeSection := "", initialChatStep := "done" }

/-- The session id carried by a driver outcome (empty for a failure,
which never assigns). -/
def sessionIdOf : ChatResult → String
  | .failure _ => ""
  | .success r => r.session_id

/-- The suggested filename of an export outcome, when a file is saved. -/
def filenameOf : ExportOutcome → Option String
  | .fileSaved name _ => some name
  | _ => none

/-- Modelled from the spec: the spec permits an empty submission only
while "the stage is drafting and a synthetic continue action is in
flight" — in code terms, only while the reviewed-draft continue path is
active.  Written from the spec's words, to compare with the code's
actual guard. -/
def specPermitsEmptySubmission (st : ChatState) : Prop :=
  st.isReviewedSectionDraftActive = true

/-- Demo clarifying-question interrupt response. -/
def demoQuestionResp : AgentResponse :=
  { rtype := "interrupt", action := "get_question_response",
    question := "Which parties are involved?", reason := "Parties are required.",
    qsection := "Introduction", qsubsection := "Purpose", session_id := "",
    all_sections := [], title := "", idea := "", draft := "",
    final_all_drafts := none }

/-- Demo terminal `generate_document` response carrying a complete
draft map. -/
def demoDoneResp : AgentResponse :=
  { rtype := "", action := "generate_document", question := "", reason := "",
    qsection := "", qsubsection := "", session_id := "", all_sections := [],
    title := "", idea := "", draft := "",
    final_all_drafts := some [("Introduction", "Intro text."), ("Terms", "Terms text.")] }

/-- Demo store state in the drafting phase with an active section. -/
def demoDraftState : ChatState :=
  { demoState with
    initialChatStep := "done"
    activeSection := "Introduction"
    input := "continue please" }

/-- The `finalContract` of §8 scenario 8: title "My NDA!!", drafts
`{"Intro": "Text one.", "Terms": ""}`. -/
def ndaFinalContract : FinalContract :=
  { title := "My NDA!!", contract_title := "", sections := none,
    drafts := some [("Intro", "Text one."), ("Terms", "")] }

-- Basic facts about the editing primitives.

theorem removeAtIdx_length_ge {α : Type} (l : List α) (idx : Nat) :
    l.length - 1 ≤ (removeAtIdx l idx).length := by
  induction l generalizing idx with
  | nil => simp [removeAtIdx]
  | cons a t ih =>
    cases idx with
    | zero => simp [removeAtIdx, List.eraseIdx]
    | succ n =>
      simp only [removeAtIdx, List.eraseIdx, List.length_cons, Nat.succ_sub_one]
      have := ih n
      simp only [removeAtIdx] at this
      omega

theorem deleteSubsection_min_one (sections : List CSection)
    (h : ∀ s ∈ sections, 1 ≤ s.subsections.length)
    (si ti : Nat) :
    ∀ s ∈ deleteSubsection sections si ti, 1 ≤ s.subsections.length := by
  intro s hs
  unfold deleteSubsection at hs
  cases hsec : sections[si]? with
  | none => rw [hsec] at hs; exact h s hs
  | some sec =>
    rw [hsec] at hs
    by_cases hlen : sec.subsections.length ≤ 1
    · simp only [hlen, if_true] at hs
      exact h s hs
    · simp only [hlen, if_false] at hs
      rcases List.mem_or_eq_of_mem_set hs with hmem | heq
      · exact h s hmem
      · subst heq
        simp only
        have := removeAtIdx_length_ge sec.subsections ti
        omega

theorem runDeletes_min_one (sections : List CSection) (ops : List (Nat × Nat))
    (h : ∀ s ∈ sections, 1 ≤ s.subsections.length) :
    ∀ s ∈ runDeletes sections ops, 1 ≤ s.subsections.length := by
  induction ops generalizing sections with
  | nil => simpa [runDeletes] using h
  | cons op rest ih =>
    simp only [runDeletes, List.foldl_cons]
    exact ih _ (deleteSubsection_min_one sections h op.1 op.2)

theorem deleteSubsection_rejected (sections : List CSection) (si ti : Nat)
    (sec : CSection) (hsec : sections[si]? = some sec)
    (hone : sec.subsections.length = 1) :
    deleteSubsection sections si ti = sections := by
  unfold deleteSubsection
  rw [hsec]
  simp [hone]

-- Association-list facts about `setDraft`, used for the registry claims.

theorem lookupDraft_mapWrite (d : DraftMap) (h v : String)
    (hany : d.any (fun p => p.1 = h) = true) :
    lookupDraft (d.map (fun p => if p.1 = h then (h, v) else p)) h = some v := by
  induction d with
  | nil => simp at hany
  | cons a t ih =>
    by_cases ha : a.1 = h
    · simp [lookupDraft, List.find?, ha]
    · have htail : t.any (fun p => p.1 = h) = true := by
        simp only [List.any_cons, Bool.or_eq_true, decide_eq_true_eq] at hany
        rcases hany with h1 | h2
        · exact absurd h1 ha
        · exact h2
      simpa [lookupDraft, List.find?, ha] using ih htail

theorem lookupDraft_append_right (d : DraftMap) (h v : String)
    (hnone : d.any (fun p => p.1 = h) = false) :
    lookupDraft (d ++ [(h, v)]) h = some v := by
  induction d with
  | nil => simp [lookupDraft, List.find?]
  | cons a t ih =>
    simp only [List.any_cons, Bool.or_eq_false_iff, decide_eq_false_iff_not] at hnone
    simpa [lookupDraft, List.find?, hnone.1] using ih (by simpa using hnone.2)

theorem lookupDraft_setDraft_self (d : DraftMap) (h v : String) :
    lookupDraft (setDraft d h v) h = some v := by
  unfold setDraft
  by_cases hany : d.any (fun p => p.1 = h) = true
  · rw [if_pos hany]
    exact lookupDraft_mapWrite d h v hany
  · rw [if_neg hany]
    have hfalse : d.any (fun p => p.1 = h) = false := by
      cases hb : d.any (fun p => p.1 = h) with
      | false => rfl
      | true => exact absurd hb hany
    exact lookupDraft_append_right d h v hfalse

theorem lookupDraft_mapWrite_ne (d : DraftMap) (h v k : String) (hk : ¬ h = k) :
    lookupDraft (d.map (fun p => if p.1 = h then (h, v) else p)) k = lookupDraft d k := by
  induction d with
  | nil => rfl
  | cons a t ih =>
    simp only [List.map_cons]
    by_cases ha : a.1 = h
    · rw [if_pos ha]
      unfold lookupDraft
      rw [List.find?_cons_of_neg _ (by simp [hk]),
        List.find?_cons_of_neg _ (by simp [ha, hk])]
      simpa [lookupDraft] using ih
    · rw [if_neg ha]
      by_cases hak : a.1 = k
      · unfold lookupDraft
        rw [List.find?_cons_of_pos _ (by simp [hak]),
          List.find?_cons_of_pos _ (by simp [hak])]
      · unfold lookupDraft
        rw [List.find?_cons_of_neg _ (by simp [hak]),
          List.find?_cons_of_neg _ (by simp [hak])]
        simpa [lookupDraft] using ih

theorem lookupDraft_append_ne (d : DraftMap) (h v k : String) (hk : ¬ h = k) :
    lookupDraft (d ++ [(h, v)]) k = lookupDraft d k := by
  induction d with
  | nil =>
    unfold lookupDraft
    rw [List.nil_append, List.find?_cons_of_neg _ (by simp [hk])]
  | cons a t ih =>
    rw [List.cons_append]
    by_cases hak : a.1 = k
    · unfold lookupDraft
      rw [List.find?_cons_of_pos _ (by simp [hak]),
        List.find?_cons_of_pos _ (by simp [hak])]
    · unfold lookupDraft
      rw [List.find?_cons_of_neg _ (by simp [hak]),
        List.find?_cons_of_neg _ (by simp [hak])]
      simpa [lookupDraft] using ih

theorem lookupDraft_setDraft_ne (d : DraftMap) (h v k : String) (hk : k ≠ h) :
    lookupDraft (setDraft d h v) k = lookupDraft d k := by
  have hk2 : ¬ h = k := fun he => hk he.symm
  unfold setDraft
  by_cases hany : d.any (fun p => p.1 = h) = true
  · rw [if_pos hany]
    exact lookupDraft_mapWrite_ne d h v k hk2
  · rw [if_neg hany]
    exact lookupDraft_append_ne d h v k hk2

/-- Folding the placeholder writes preserves an existing placeholder
binding. -/
theorem writeAll_preserves (hs : List CSection) (d : DraftMap) (k : String)
    (hd : lookupDraft d k = some placeholderText) :
    lookupDraft
      (hs.foldl (fun acc s => setDraft acc s.section_heading placeholderText) d) k =
      some placeholderText := by
  induction hs generalizing d with
  | nil => simpa using hd
  | cons s t ih =>
    simp only [List.foldl_cons]
    apply ih
    by_cases hks : k = s.section_heading
    · subst hks
      exact lookupDraft_setDraft_self d s.section_heading placeholderText
    · rw [lookupDraft_setDraft_ne d s.section_heading placeholderText k hks]
      exact hd

/-- After folding the placeholder writes over the whole section list,
every listed heading is bound to the placeholder. -/
theorem writeAll_covers (hs : List CSection) (d : DraftMap) :
    ∀ s ∈ hs,
      lookupDraft
        (hs.foldl (fun acc s => setDraft acc s.section_heading placeholderText) d)
        s.section_heading = some placeholderText := by
  induction hs generalizing d with
  | nil => intro s hmem; cases hmem
  | cons a t ih =>
    intro s hmem
    simp only [List.foldl_cons]
    rcases List.mem_cons.mp hmem with rfl | hmem
    · exact writeAll_preserves t _ s.section_heading
        (lookupDraft_setDraft_self d s.section_heading placeholderText)
    · exact ih _ s hmem

/-! Claims. -/

/-- C1: deleting a subsection of a contract section that has exactly
one remaining subsection is rejected — the section list is left
unchanged — and consequently, for every sequence of subsection delete
operations, every section's subsection count never drops below 1. -/
theorem claim1_subsection_floor :
    (∀ (sections : List CSection) (si ti : Nat) (sec : CSection),
        sections[si]? = some sec → sec.subsections.length = 1 →
        deleteSubsection sections si ti = sections) ∧
    (∀ (sections : List CSection) (ops : List (Nat × Nat)),
        (∀ s ∈ sections, 1 ≤ s.subsections.length) →
        ∀ s ∈ runDeletes sections ops, 1 ≤ s.subsections.length) :=
  ⟨fun sections si ti sec hsec hone =>
      deleteSubsection_rejected sections si ti sec hsec hone,
   fun sections ops h => runDeletes_min_one sections ops h⟩

/-- Witness for C1 at concrete input: deleting the only subsection of
the demo "Introduction" section leaves the section list unchanged. -/
theorem claim1_subsection_floor_witness :
    deleteSubsection demoSections 0 0 = demoSections ∧
    ((runDeletes demoSections [(0, 0), (1, 1), (1, 0)]).all
      (fun s => decide (1 ≤ s.subsections.length))) = true :=
  ⟨claim1_subsection_floor.1 demoSections 0 0 demoIntroSection (by decide) (by decide),
   by decide⟩

/-- C2 counterexample: for the registry where section "A" has
whitespace-only body and "B" has body "hello", the exported document
does contain a block for "A" (its heading is emitted unconditionally),
contrary to the claim that the pair is skipped. -/
theorem claim2_counterexample :
    Block.heading "A" ∈ generateDraftsDocxBlocks [("A", "  "), ("B", "hello")] := by
  decide

/-- C2 amended: the export skips no (heading, bodyText) pair — every
pair contributes its heading block unconditionally, followed by one
paragraph per non-empty newline-chunk of the body; for the A/B registry
the output is A's heading, a whitespace paragraph, B's heading and B's
paragraph. -/
theorem claim2_export_blocks :
    (∀ (drafts : DraftMap) (h b : String), (h, b) ∈ drafts →
        Block.heading h ∈ generateDraftsDocxBlocks drafts) ∧
    generateDraftsDocxBlocks [("A", "  "), ("B", "hello")] =
      [Block.heading "A", Block.para "  ", Block.heading "B", Block.para "hello"] := by
  constructor
  · intro drafts h b hmem
    unfold generateDraftsDocxBlocks
    refine List.mem_flatten.mpr ⟨createFormattedSection h b, ?_, ?_⟩
    · exact List.mem_map.mpr ⟨(h, b), hmem, rfl⟩
    · unfold createFormattedSection
      exact List.mem_cons_self _ _
  · decide

/-- Witness for C2 amended at concrete input. -/
theorem claim2_export_blocks_witness :
    Block.heading "X" ∈ generateDraftsDocxBlocks [("X", "y")] :=
  claim2_export_blocks.1 [("X", "y")] "X" "y" (by decide)

/-- C8 counterexample: the draft-panel Download path (part_006) runs
`generateDraftsDocx` with no emptiness check: with an empty registry it
still produces a file (an empty DOCX), with no alert. -/
theorem claim8_counterexample :
    draftPanelDownload [] "My NDA" = ExportOutcome.fileSaved "My NDA.docx" [] := by
  decide

/-- C8 amended: only the uploaded-contract download path
(`handleDownloadContract`) aborts with a blocking alert and no file
when the formatted content is blank after trimming; the draft-panel
Download path performs no emptiness check and always saves a file. -/
theorem claim8_empty_export :
    (∀ fc : FinalContract, jsTrim (formattedContentOf fc) = "" →
        handleDownloadContract (some fc) = .alerted downloadAlertMsg) ∧
    (∀ (ds : DraftMap) (t : String),
        filenameOf (draftPanelDownload ds t) = some (docxFileName t)) := by
  constructor
  · intro fc hblank
    simp only [handleDownloadContract]
    rw [if_pos hblank]
  · intro ds t
    rfl

/-- Witness for C8 amended at concrete input: an all-blank sections
payload triggers the alert. -/
theorem claim8_empty_export_witness :
    handleDownloadContract
      (some { title := "T", contract_title := "", sections := some [], drafts := none }) =
      .alerted downloadAlertMsg :=
  claim8_empty_export.1
    { title := "T", contract_title := "", sections := some [], drafts := none }
    (by decide)

/-- C9 counterexample: for title "My NDA!!" the suggested filename the
code actually uses is the unsanitized "My NDA!!.docx", not the claimed
"My_NDA.docx". -/
theorem claim9_counterexample :
    filenameOf (handleDownloadContract (some ndaFinalContract)) = some "My NDA!!.docx" ∧
    some ("My NDA!!.docx" : String) ≠ some ("My_NDA.docx" : String) := by
  constructor
  · decide
  · decide

/-- C9 amended: the suggested filename is the raw, unsanitized
caller-supplied title plus ".docx" ("My NDA!!" yields "My NDA!!.docx"),
with fallback stem "draft" when no title is supplied; the sanitizing
expression exists in `handleDownloadContract` only as an unused local
(which would yield "My_NDA_Contract.docx", not "My_NDA.docx"). -/
theorem claim9_filename :
    (∀ t : String, t ≠ "" → docxFileName t = t ++ ".docx") ∧
    filenameOf (handleDownloadContract (some ndaFinalContract)) = some "My NDA!!.docx" ∧
    filenameOf (draftPanelDownload [("A", "x")] "") = some "draft.docx" ∧
    unusedSanitizedFileName "My NDA!!" = "My_NDA_Contract.docx" := by
  refine ⟨?_, by decide, by decide, by decide⟩
  intro t ht
  unfold docxFileName
  rw [if_neg ht]

/-- Witness for C9 amended at concrete input. -/
theorem claim9_filename_witness :
    docxFileName "My NDA!!" = "My NDA!!" ++ ".docx" :=
  claim9_filename.1 "My NDA!!" (by decide)

/-- C10: whenever the contract-section list changes to any non-empty
list — including after user edits such as renaming a section or
deleting a subsection — the provider effect writes the placeholder
string into the draft registry under every heading currently in the
list, overwriting whatever was stored there. -/
theorem claim10_placeholder_overwrite :
    (∀ (sections : List CSection) (d : DraftMap), sections ≠ [] →
        ∀ s ∈ sections,
          lookupDraft (applySectionsEffect sections d) s.section_heading =
            some placeholderText) ∧
    (∀ (sections : List CSection) (si : Nat) (f : SectionField) (v : String)
        (d : DraftMap), updateSection sections si f v ≠ [] →
        ∀ s ∈ updateSection sections si f v,
          lookupDraft (applySectionsEffect (updateSection sections si f v) d)
            s.section_heading = some placeholderText) ∧
    (∀ (sections : List CSection) (si ti : Nat) (d : DraftMap),
        deleteSubsection sections si ti ≠ [] →
        ∀ s ∈ deleteSubsection sections si ti,
          lookupDraft (applySectionsEffect (deleteSubsection sections si ti) d)
            s.section_heading = some placeholderText) := by
  have main : ∀ (sections : List CSection) (d : DraftMap), sections ≠ [] →
      ∀ s ∈ sections,
        lookupDraft (applySectionsEffect sections d) s.section_heading =
          some placeholderText := by
    intro sections d hne s hs
    unfold applySectionsEffect
    rw [if_pos (List.length_pos.mpr hne)]
    exact writeAll_covers sections d s hs
  exact ⟨main, fun sections si f v d => main _ d, fun sections si ti d => main _ d⟩

/-- Witness for C10 at concrete input: after the effect runs over the
demo sections, a previously user-edited draft under "Introduction" is
overwritten with the placeholder. -/
theorem claim10_placeholder_overwrite_witness :
    lookupDraft (applySectionsEffect demoSections [("Introduction", "user-edited text")])
      "Introduction" = some placeholderText :=
  claim10_placeholder_overwrite.1 demoSections [("Introduction", "user-edited text")]
    (by decide) demoIntroSection (by decide)

/-- C3: a transport failure (network error or non-2xx status) during a
submission leaves the stage field unchanged and appends exactly one
assistant error turn to the relevant transcript, in both the
initial-chat and the draft-chat operation; the operations are total, so
no exception escapes the store and it stays usable. -/
theorem claim3_transport_failure :
    (∀ (st : ChatState) (f : ChatFailure),
        jsTrim st.input ≠ "" →
        (st.initialChatStep = "idea-submission" ∨
          st.initialChatStep = "question-response") →
        (handleSend st (.failure f)).1.initialChatStep = st.initialChatStep ∧
        (handleSend st (.failure f)).1.messages =
          st.messages ++ [userTurn st.input,
            { role := "assistant", content := userErrorMessage (errMessage f) }]) ∧
    (∀ (st : ChatState) (f : ChatFailure),
        ¬ (jsTrim st.input = "" ∧ st.activeSection ≠ "" ∧
            st.isReviewedSectionDraftActive = false) →
        (handleDraftChat st (.failure f)).1.initialChatStep = st.initialChatStep ∧
        (handleDraftChat st (.failure f)).1.draftMessages =
          draftUpdatedMessages st ++
            [{ role := "assistant",
               content := "I apologize, but I encountered an error. Please try again." }]) := by
  constructor
  · intro st f h1 h2
    rcases h2 with hstep | hstep
    · constructor <;> simp [handleSend, h1, hstep, List.append_assoc]
    · have hni : st.initialChatStep ≠ "idea-submission" := by
        rw [hstep]; decide
      constructor <;> simp [handleSend, h1, hstep, hni, List.append_assoc]
  · intro st f hguard
    rcases f <;> constructor <;> simp [handleDraftChat, hguard]

/-- Witness for C3 at concrete input: an HTTP 500 failure in the
initial chat. -/
theorem claim3_transport_failure_witness :
    (handleSend demoState (.failure (.httpError 500))).1.initialChatStep =
      demoState.initialChatStep ∧
    (handleSend demoState (.failure (.httpError 500))).1.messages =
      demoState.messages ++ [userTurn demoState.input,
        { role := "assistant",
          content := userErrorMessage (errMessage (.httpError 500)) }] :=
  claim3_transport_failure.1 demoState (.httpError 500) (by decide) (Or.inl (by decide))

/-- C4: from the idea-submission or question-response stage, an
interrupt response with action get_question_response keeps/sets the
stage to question-response and appends exactly one assistant turn
(after the user turn); an interrupt response with action
get_structure_review sets the stage to structure-review and wholesale
replaces the section list, the title and the rephrased idea. -/
theorem claim4_interrupt_dispatch :
    ∀ (st : ChatState) (r : AgentResponse),
      jsTrim st.input ≠ "" →
      (st.initialChatStep = "idea-submission" ∨
        st.initialChatStep = "question-response") →
      r.rtype = "interrupt" →
      ((r.action = "get_question_response" →
          (handleSend st (.success r)).1.initialChatStep = "question-response" ∧
          (handleSend st (.success r)).1.messages =
            st.messages ++ [userTurn st.input, assistantQuestionTurn r]) ∧
       (r.action = "get_structure_review" →
          (handleSend st (.success r)).1.initialChatStep = "structure-review" ∧
          (handleSend st (.success r)).1.contractSections = r.all_sections ∧
          (handleSend st (.success r)).1.selectedTitle = r.title ∧
          (handleSend st (.success r)).1.rephrasedIdea = r.idea ∧
          (handleSend st (.success r)).1.messages =
            st.messages ++ [userTurn st.input])) := by
  intro st r h1 h2 hrt
  constructor
  · intro ha
    rcases h2 with hstep | hstep
    · constructor <;> simp [handleSend, h1, hstep, hrt, ha, List.append_assoc]
    · have hni : st.initialChatStep ≠ "idea-submission" := by
        rw [hstep]; decide
      constructor <;>
        simp [handleSend, h1, hstep, hni, hrt, ha, List.append_assoc]
  · intro ha
    have hnq : r.action ≠ "get_question_response" := by
      rw [ha]; decide
    rcases h2 with hstep | hstep
    · refine ⟨?_, ?_, ?_, ?_, ?_⟩ <;>
        simp [handleSend, h1, hstep, hrt, ha, hnq]
    · have hni : st.initialChatStep ≠ "idea-submission" := by
        rw [hstep]; decide
      refine ⟨?_, ?_, ?_, ?_, ?_⟩ <;>
        simp [handleSend, h1, hstep, hni, hrt, ha, hnq]

/-- Witness for C4 at concrete input: a clarifying-question interrupt
from the fresh idea-submission state. -/
theorem claim4_interrupt_dispatch_witness :
    (handleSend demoState (.success demoQuestionResp)).1.initialChatStep =
      "question-response" ∧
    (handleSend demoState (.success demoQuestionResp)).1.messages =
      demoState.messages ++
        [userTurn demoState.input, assistantQuestionTurn demoQuestionResp] :=
  (claim4_interrupt_dispatch demoState demoQuestionResp (by decide)
    (Or.inl (by decide)) (by decide)).1 (by decide)

/-- C5: a drafting-phase response with action generate_document whose
payload carries a complete draft map overwrites the entire draft
registry from that map, sets the drafting-complete flag, and appends
exactly one terminal assistant turn. -/
theorem claim5_generate_document :
    ∀ (st : ChatState) (r : AgentResponse) (m : DraftMap),
      ¬ (jsTrim st.input = "" ∧ st.activeSection ≠ "" ∧
          st.isReviewedSectionDraftActive = false) →
      r.action = "generate_document" →
      r.final_all_drafts = some m →
      (handleDraftChat st (.success r)).1.drafts = m ∧
      (handleDraftChat st (.success r)).1.isDraftingComplete = true ∧
      (handleDraftChat st (.success r)).1.draftMessages =
        draftUpdatedMessages st ++
          [{ role := "assistant",
             content := "## **We have completed all the sections. Download the draft from draft section.**" }] := by
  intro st r m hguard ha hm
  refine ⟨?_, ?_, ?_⟩ <;> simp [handleDraftChat, hguard, ha, hm]

/-- Witness for C5 at concrete input. -/
theorem claim5_generate_document_witness :
    (handleDraftChat demoDraftState (.success demoDoneResp)).1.drafts =
      [("Introduction", "Intro text."), ("Terms", "Terms text.")] ∧
    (handleDraftChat demoDraftState (.success demoDoneResp)).1.isDraftingComplete = true ∧
    (handleDraftChat demoDraftState (.success demoDoneResp)).1.draftMessages =
      draftUpdatedMessages demoDraftState ++
        [{ role := "assistant",
           content := "## **We have completed all the sections. Download the draft from draft section.**" }] :=
  claim5_generate_document demoDraftState demoDoneResp
    [("Introduction", "Intro text."), ("Terms", "Terms text.")]
    (by decide) (by decide) (by decide)

/-- C6 counterexample: from a state whose session id is already the
non-empty "s-prior", a get_structure_review interrupt overwrites it
with the response's "s-1" — the non-empty session id is not left
unchanged. -/
theorem claim6_counterexample :
    demoStatePrior.session_id = "s-prior" ∧
    demoStatePrior.session_id ≠ "" ∧
    (handleSend demoStatePrior (.success demoStructureResp)).1.session_id = "s-1" ∧
    ("s-1" : String) ≠ "s-prior" := by
  refine ⟨by decide, by decide, by decide, by decide⟩

/-- C6 amended: a single workflow-driver call performs at most one
session assignment — the resulting session id is either the previous
one or the one carried by the response — and the draft-chat operation
never assigns it; but a get_structure_review interrupt stores the
response's session id unconditionally, overwriting any previously set
id rather than keeping a non-empty one. -/
theorem claim6_session_assignment :
    (∀ (st : ChatState) (res : ChatResult),
        (handleSend st res).1.session_id = st.session_id ∨
        (handleSend st res).1.session_id = sessionIdOf res) ∧
    (∀ (st : ChatState) (res : ChatResult),
        (handleDraftChat st res).1.session_id = st.session_id) ∧
    (∀ (st : ChatState) (r : AgentResponse),
        jsTrim st.input ≠ "" →
        (st.initialChatStep = "idea-submission" ∨
          st.initialChatStep = "question-response") →
        r.rtype = "interrupt" → r.action = "get_structure_review" →
        (handleSend st (.success r)).1.session_id = r.session_id) := by
  refine ⟨?_, ?_, ?_⟩
  · intro st res
    rcases res with f | r <;> simp only [handleSend] <;> split_ifs <;>
      simp [sessionIdOf]
  · intro st res
    rcases res with f | r
    · rcases f <;> simp only [handleDraftChat] <;> split_ifs <;> simp
    · simp only [handleDraftChat]
      split_ifs <;> rcases r.final_all_drafts with _ | m <;> simp
  · intro st r h1 h2 hrt ha
    have hnq : r.action ≠ "get_question_response" := by rw [ha]; decide
    rcases h2 with hstep | hstep
    · simp [handleSend, h1, hstep, hrt, ha, hnq]
    · have hni : st.initialChatStep ≠ "idea-submission" := by rw [hstep]; decide
      simp [handleSend, h1, hstep, hni, hrt, ha, hnq]

/-- Witness for C6 amended at concrete input. -/
theorem claim6_session_assignment_witness :
    (handleSend demoState (.success demoStructureResp)).1.session_id =
      demoStructureResp.session_id :=
  claim6_session_assignment.2.2 demoState demoStructureResp (by decide)
    (Or.inl (by decide)) (by decide) (by decide)

/-- C7 counterexample: at the drafting bootstrap (blank input, no
active section, continue path inactive — a state the spec's rule does
not permit an empty submission in), the draft-chat operation is not a
no-op: it issues a network request. -/
theorem claim7_counterexample :
    jsTrim demoBootState.input = "" ∧
    ¬ specPermitsEmptySubmission demoBootState ∧
    (handleDraftChat demoBootState (.success demoStructureResp)).2 = true := by
  refine ⟨by decide, ?_, by decide⟩
  unfold specPermitsEmptySubmission
  decide

/-- C7 amended: a blank input makes the initial-chat submission a no-op
unconditionally, and makes the draft-chat submission a no-op exactly
when an active section is set and the continue path is inactive; with
no active section set, a blank draft-chat submission proceeds and
issues a request. -/
theorem claim7_blank_input :
    (∀ (st : ChatState) (res : ChatResult),
        jsTrim st.input = "" → handleSend st res = (st, false)) ∧
    (∀ (st : ChatState) (res : ChatResult),
        jsTrim st.input = "" → st.activeSection ≠ "" →
        st.isReviewedSectionDraftActive = false →
        handleDraftChat st res = (st, false)) ∧
    (∀ (st : ChatState) (res : ChatResult),
        jsTrim st.input = "" → st.activeSection = "" →
        (handleDraftChat st res).2 = true) := by
  refine ⟨?_, ?_, ?_⟩
  · intro st res h
    simp [handleSend, h]
  · intro st res hA hB hC
    simp [handleDraftChat, hA, hB, hC]
  · intro st res hA hAS
    rcases res with f | r
    · rcases f <;> simp [handleDraftChat, hAS]
    · by_cases hgen : r.action = "generate_document"
      · rcases hfd : r.final_all_drafts with _ | m <;>
          simp [handleDraftChat, hAS, hgen, hfd]
      · by_cases hq : r.action = "get_question_response"
        · simp [handleDraftChat, hAS, hgen, hq]
        · by_cases hrev : r.action = "get_reviewed_section_draft"
          · simp [handleDraftChat, hAS, hgen, hq, hrev]
          · by_cases hch : r.action = "get_review_changes"
            · simp [handleDraftChat, hAS, hgen, hq, hrev, hch]
            · simp [handleDraftChat, hAS, hgen, hq, hrev, hch]

/-- Witness for C7 amended at concrete inputs. -/
theorem claim7_blank_input_witness :
    handleSend { demoState with input := "  " } (.failure .fetchFailed) =
      ({ demoState with input := "  " }, false) ∧
    handleDraftChat { demoState with input := "", activeSection := "Intro" }
        (.failure .fetchFailed) =
      ({ demoState with input := "", activeSection := "Intro" }, false) ∧
    (handleDraftChat demoBootState (.failure .fetchFailed)).2 = true :=
  ⟨claim7_blank_input.1 _ _ (by decide),
   claim7_blank_input.2.1 _ _ (by decide) (by decide) (by decide),
   claim7_blank_input.2.2 _ _ (by decide) (by decide)⟩
